import Mathlib

/-!
Shallow embedding of `pkg/webhook/admission/validator.go` from
james-w/controller-runtime: the admission-validation handler
(`validatingHandler.Handle`) and the adapter (`ValidatorWrapper`) that
wraps a plain `Validator` as a `MetaValidator`.

Modelling conventions:
* Go `error` values are `Option String` (`none` = nil error, `some m` =
  error with message `m`).
* Go runtime panics are modelled by the `GoPanic` type; a computation
  that can panic returns `Except GoPanic _`.
* `runtime.Object` values are `RObject`: a dynamic concrete-type name
  plus opaque payload data.  Go interface-method dispatch on the dynamic
  type is modelled by a `TypeEnv` mapping type names to the `Validator`
  method set a type implements (`none` = the type does not implement
  `Validator`); the single-value type assertion `obj.(Validator)`
  panics exactly when the lookup yields `none`, as in Go.
* Calls the handler makes to its collaborators (instance construction,
  deep copy, decoding, validation) are recorded in an event trace so
  that call-order and call-count properties are statable.
-/

/-- Admission operations (`admissionv1beta1.Operation`) are a string type in Go. -/
abbrev Operation := String

/-- The CREATE operation constant. -/
def Operation.Create : Operation := "CREATE"

/-- The UPDATE operation constant. -/
def Operation.Update : Operation := "UPDATE"

/-- The DELETE operation constant. -/
def Operation.Delete : Operation := "DELETE"

/-- Raw encoded object bytes (`runtime.RawExtension`), kept opaque. -/
abbrev Raw := String

/-- The fields of `admissionv1beta1.AdmissionRequest` the handler reads, plus
opaque request metadata (user info, dry-run flag, ...) that is passed through
to `MetaValidator` methods unmodified. -/
structure AdmissionRequest where
  operation : Operation
  object : Raw
  oldObject : Raw
  userInfo : String
deriving DecidableEq, Repr

/-- The admission `Request` type embeds `AdmissionRequest` (struct embedding in Go). -/
structure Request where
  AdmissionRequest : AdmissionRequest
deriving DecidableEq, Repr

/-- Promoted field access `req.Operation`. -/
def Request.Operation (r : Request) : Operation := r.AdmissionRequest.operation

/-- Promoted field access `req.Object`. -/
def Request.Object (r : Request) : Raw := r.AdmissionRequest.object

/-- Promoted field access `req.OldObject`. -/
def Request.OldObject (r : Request) : Raw := r.AdmissionRequest.oldObject

/-- A `runtime.Object` value: a dynamic concrete-type name and opaque data. -/
structure RObject where
  typeName : String
  data : String
deriving DecidableEq, Repr

/-- Deep copy of a resource instance (`obj.DeepCopyObject()` on the instance
itself).  A deep copy of a pure value is the value. -/
def RObject.DeepCopyObject (o : RObject) : RObject := o

/-- Go runtime panics that can arise in this code. -/
inductive GoPanic where
  /-- The explicit `panic("validator should never be nil")` in `Handle`. -/
  | nilValidator
  /-- A nil-pointer dereference, as when a method is called on a nil `*Decoder`. -/
  | nilPtrDeref
  /-- A failed single-value interface type assertion `obj.(Validator)`:
  the dynamic type does not implement the target interface. -/
  | typeAssertionFailed (dynamicType : String) (target : String)
deriving DecidableEq, Repr

/-- Modelled from the spec: the response/verdict type produced by the handler
(`Allowed` / `Denied` / `Errored` live in `response.go`, which is not part of
the provided source).  Per the spec, a verdict is Allowed (the code passes a
reason string, empty on the default path), Denied with a human-readable
reason, or Errored with an HTTP-style status code and the underlying error. -/
inductive Response where
  | allowed (reason : String)
  | denied (reason : String)
  | errored (code : Nat) (err : String)
deriving DecidableEq, Repr

/-- `http.StatusBadRequest`. -/
def StatusBadRequest : Nat := 400

/-- The method set of the `Validator` interface for one concrete type
(beyond `runtime.Object`): the receiver is passed explicitly. -/
structure ValidatorImpl where
  ValidateCreate : RObject → Option String
  ValidateUpdate : RObject → RObject → Option String
  ValidateDelete : RObject → Option String

/-- The global method-dispatch environment: which concrete types implement
`Validator`, and with which method set. -/
def TypeEnv := String → Option ValidatorImpl

/-- `ValidatorWrapper` wraps a `Validator` interface value; the underlying
object is the wrapped validator value. -/
structure ValidatorWrapper where
  Validator : RObject

/-- `NewValidatorWrapper` creates a `ValidatorWrapper` around a validator. -/
def NewValidatorWrapper (validator : RObject) : ValidatorWrapper :=
  { Validator := validator }

/-- `ValidatorWrapper.DeepCopyObject` delegates to `DeepCopyObject` of the
underlying validator, producing an instance of the wrapped type. -/
def ValidatorWrapper.DeepCopyObject (v : ValidatorWrapper) : RObject :=
  RObject.DeepCopyObject v.Validator

/-- One invocation of the wrapped capability recorded by the adapter. -/
inductive WrappedCall where
  | create (receiver : RObject)
  | update (receiver old : RObject)
  | delete (receiver : RObject)
deriving DecidableEq, Repr

/-- `ValidatorWrapper.ValidateCreate`: `return obj.(Validator).ValidateCreate()`.
The request argument is discarded (`_` in the source).  The unchecked type
assertion panics when `obj`'s dynamic type does not implement `Validator`;
otherwise the dynamic type's `ValidateCreate` runs once with receiver `obj`.
The second component records the calls made to the wrapped capability. -/
def ValidatorWrapper.ValidateCreate (env : TypeEnv) (_v : ValidatorWrapper)
    (obj : RObject) (_req : AdmissionRequest) :
    Except GoPanic (Option String) × List WrappedCall :=
  match env obj.typeName with
  | none => (Except.error (GoPanic.typeAssertionFailed obj.typeName "Validator"), [])
  | some impl => (Except.ok (impl.ValidateCreate obj), [WrappedCall.create obj])

/-- `ValidatorWrapper.ValidateUpdate`: `return obj.(Validator).ValidateUpdate(old)`. -/
def ValidatorWrapper.ValidateUpdate (env : TypeEnv) (_v : ValidatorWrapper)
    (obj old : RObject) (_req : AdmissionRequest) :
    Except GoPanic (Option String) × List WrappedCall :=
  match env obj.typeName with
  | none => (Except.error (GoPanic.typeAssertionFailed obj.typeName "Validator"), [])
  | some impl => (Except.ok (impl.ValidateUpdate obj old), [WrappedCall.update obj old])

/-- `ValidatorWrapper.ValidateDelete`: `return obj.(Validator).ValidateDelete()`. -/
def ValidatorWrapper.ValidateDelete (env : TypeEnv) (_v : ValidatorWrapper)
    (obj : RObject) (_req : AdmissionRequest) :
    Except GoPanic (Option String) × List WrappedCall :=
  match env obj.typeName with
  | none => (Except.error (GoPanic.typeAssertionFailed obj.typeName "Validator"), [])
  | some impl => (Except.ok (impl.ValidateDelete obj), [WrappedCall.delete obj])

/-- The `MetaValidator` interface as consumed by the handler: a fresh empty
instance (`DeepCopyObject`) and the three request-aware validation methods,
each of which may return an error (`some msg`) or panic. -/
structure MetaValidator where
  DeepCopyObject : RObject
  ValidateCreate : RObject → AdmissionRequest → Except GoPanic (Option String)
  ValidateUpdate : RObject → RObject → AdmissionRequest → Except GoPanic (Option String)
  ValidateDelete : RObject → AdmissionRequest → Except GoPanic (Option String)

/-- The `MetaValidator` view of a `ValidatorWrapper` (the interface value
returned by `NewValidatorWrapper`; `var _ MetaValidator = &ValidatorWrapper{}`). -/
def ValidatorWrapper.toMetaValidator (env : TypeEnv) (v : ValidatorWrapper) :
    MetaValidator where
  DeepCopyObject := v.DeepCopyObject
  ValidateCreate := fun obj req => (ValidatorWrapper.ValidateCreate env v obj req).1
  ValidateUpdate := fun obj old req => (ValidatorWrapper.ValidateUpdate env v obj old req).1
  ValidateDelete := fun obj req => (ValidatorWrapper.ValidateDelete env v obj req).1

/-- Modelled from the spec: the external Decoder collaborator
(`decode(request, target) -> error`, `decodeRaw(bytes, target) -> error`;
`decode.go` is not part of the provided source).  On success it returns the
populated instance; on error the target is left unmodified, which the
`Except` style captures by returning no instance. -/
structure Decoder where
  Decode : Request → RObject → Except String RObject
  DecodeRaw : Raw → RObject → Except String RObject

/-- A collaborator call made by `Handle`, in order. -/
inductive Event where
  /-- `h.validator.DeepCopyObject()`: fresh empty instance construction. -/
  | constructEmpty (result : RObject)
  /-- `obj.DeepCopyObject()`: deep copy of an existing instance. -/
  | deepCopy (src : RObject)
  /-- `h.decoder.Decode(req, target)`. -/
  | decode (req : Request) (target : RObject)
  /-- `h.decoder.DecodeRaw(raw, target)`. -/
  | decodeRaw (raw : Raw) (target : RObject)
  /-- `h.validator.ValidateCreate(obj, req)`. -/
  | validateCreate (obj : RObject) (req : AdmissionRequest)
  /-- `h.validator.ValidateUpdate(obj, old, req)`. -/
  | validateUpdate (obj old : RObject) (req : AdmissionRequest)
  /-- `h.validator.ValidateDelete(obj, req)`. -/
  | validateDelete (obj : RObject) (req : AdmissionRequest)
deriving DecidableEq, Repr

/-- Whether an event is an invocation of a validation-capability validate
method (`ValidateCreate` / `ValidateUpdate` / `ValidateDelete`). -/
def Event.isValidate : Event → Bool
  | Event.validateCreate _ _ => true
  | Event.validateUpdate _ _ _ => true
  | Event.validateDelete _ _ => true
  | _ => false

/-- Whether an event is a decoder invocation. -/
def Event.isDecode : Event → Bool
  | Event.decode _ _ => true
  | Event.decodeRaw _ _ => true
  | _ => false

/-- The outcome of `Handle`: a returned `Response`, or a runtime panic. -/
inductive Outcome where
  | response (r : Response)
  | panicked (p : GoPanic)
deriving DecidableEq, Repr

/-- `validatingHandler`: the injected `MetaValidator` (a nil-able interface)
and the injected `*Decoder` (a nil-able pointer). -/
structure validatingHandler where
  validator : Option MetaValidator
  decoder : Option Decoder

/-- `InjectDecoder` stores the decoder and returns a nil error. -/
def validatingHandler.InjectDecoder (h : validatingHandler) (d : Decoder) :
    validatingHandler × Option String :=
  ({ h with decoder := some d }, none)

/-- The `ctx context.Context` parameter, unused by `Handle`. -/
abbrev Context := Unit

/-- The `if req.Operation == v1beta1.Delete { ... }` block of `Handle`,
followed by the final `return Allowed("")`.  `obj` is the primary instance as
it stands when control reaches this block; `t` is the trace so far. -/
def handleDelete (v : MetaValidator) (dec : Option Decoder) (req : Request)
    (obj : RObject) (t : List Event) : Outcome × List Event :=
  if req.Operation = Operation.Delete then
    match dec with
    | none => (Outcome.panicked GoPanic.nilPtrDeref, t)
    | some d =>
      let t1 := t ++ [Event.decodeRaw req.OldObject obj]
      match d.DecodeRaw req.OldObject obj with
      | Except.error e =>
        (Outcome.response (Response.errored StatusBadRequest e), t1)
      | Except.ok obj2 =>
        let t2 := t1 ++ [Event.validateDelete obj2 req.AdmissionRequest]
        match v.ValidateDelete obj2 req.AdmissionRequest with
        | Except.error p => (Outcome.panicked p, t2)
        | Except.ok (some m) => (Outcome.response (Response.denied m), t2)
        | Except.ok none => (Outcome.response (Response.allowed ""), t2)
  else
    (Outcome.response (Response.allowed ""), t)

/-- The `if req.Operation == v1beta1.Update { ... }` block of `Handle`.
On falling through (operation not Update, or update validation passed)
control continues with the Delete block. -/
def handleUpdate (v : MetaValidator) (dec : Option Decoder) (req : Request)
    (obj : RObject) (t : List Event) : Outcome × List Event :=
  if req.Operation = Operation.Update then
    let oldObj := RObject.DeepCopyObject obj
    let t1 := t ++ [Event.deepCopy obj]
    match dec with
    | none => (Outcome.panicked GoPanic.nilPtrDeref, t1)
    | some d =>
      let t2 := t1 ++ [Event.decodeRaw req.Object obj]
      match d.DecodeRaw req.Object obj with
      | Except.error e =>
        (Outcome.response (Response.errored StatusBadRequest e), t2)
      | Except.ok obj2 =>
        let t3 := t2 ++ [Event.decodeRaw req.OldObject oldObj]
        match d.DecodeRaw req.OldObject oldObj with
        | Except.error e =>
          (Outcome.response (Response.errored StatusBadRequest e), t3)
        | Except.ok old2 =>
          let t4 := t3 ++ [Event.validateUpdate obj2 old2 req.AdmissionRequest]
          match v.ValidateUpdate obj2 old2 req.AdmissionRequest with
          | Except.error p => (Outcome.panicked p, t4)
          | Except.ok (some m) => (Outcome.response (Response.denied m), t4)
          | Except.ok none => handleDelete v dec req obj2 t4
  else
    handleDelete v dec req obj t

/-- The `if req.Operation == v1beta1.Create { ... }` block of `Handle`.
On falling through control continues with the Update block. -/
def handleCreate (v : MetaValidator) (dec : Option Decoder) (req : Request)
    (obj : RObject) (t : List Event) : Outcome × List Event :=
  if req.Operation = Operation.Create then
    match dec with
    | none => (Outcome.panicked GoPanic.nilPtrDeref, t)
    | some d =>
      let t1 := t ++ [Event.decode req obj]
      match d.Decode req obj with
      | Except.error e =>
        (Outcome.response (Response.errored StatusBadRequest e), t1)
      | Except.ok obj2 =>
        let t2 := t1 ++ [Event.validateCreate obj2 req.AdmissionRequest]
        match v.ValidateCreate obj2 req.AdmissionRequest with
        | Except.error p => (Outcome.panicked p, t2)
        | Except.ok (some m) => (Outcome.response (Response.denied m), t2)
        | Except.ok none => handleUpdate v dec req obj2 t2
  else
    handleUpdate v dec req obj t

/-- The body of `Handle` after the nil-validator precondition check:
`obj := h.validator.DeepCopyObject()` followed by the three operation
blocks and the final `return Allowed("")`. -/
def handleBody (v : MetaValidator) (dec : Option Decoder) (req : Request) :
    Outcome × List Event :=
  let obj := v.DeepCopyObject
  handleCreate v dec req obj [Event.constructEmpty obj]

/-- `validatingHandler.Handle`: panics if the validator is nil, otherwise
runs the operation-dispatched decode/validate body. -/
def validatingHandler.Handle (h : validatingHandler) (_ctx : Context)
    (req : Request) : Outcome × List Event :=
  match h.validator with
  | none => (Outcome.panicked GoPanic.nilValidator, [])
  | some v => handleBody v h.decoder req

/-! Concrete sample instances used by witnesses and counterexamples. -/

/-- A fresh empty instance of the sample resource type. -/
def sampleEmpty : RObject := { typeName := "CronTab", data := "" }

/-- Create-validation of the sample validator: reject negative replicas. -/
def sampleVC (o : RObject) (_r : AdmissionRequest) : Except GoPanic (Option String) :=
  Except.ok (if o.data = "replicas:-1" then some "replicas must be >= 0" else none)

/-- Update-validation of the sample validator: reject negative replicas. -/
def sampleVU (o _old : RObject) (_r : AdmissionRequest) : Except GoPanic (Option String) :=
  Except.ok (if o.data = "replicas:-1" then some "replicas must be >= 0" else none)

/-- Delete-validation of the sample validator: reject locked objects. -/
def sampleVD (o : RObject) (_r : AdmissionRequest) : Except GoPanic (Option String) :=
  Except.ok (if o.data = "locked" then some "object is locked" else none)

/-- A sample `MetaValidator` rejecting negative replica counts. -/
def sampleValidator : MetaValidator where
  DeepCopyObject := sampleEmpty
  ValidateCreate := sampleVC
  ValidateUpdate := sampleVU
  ValidateDelete := sampleVD

/-- A sample decoder: fails on the payload "bad", otherwise stores the raw
bytes in the instance. -/
def sampleDecoder : Decoder where
  Decode := fun req o =>
    if req.Object = "bad" then Except.error "decode failure"
    else Except.ok { o with data := req.Object }
  DecodeRaw := fun raw o =>
    if raw = "bad" then Except.error "decode failure"
    else Except.ok { o with data := raw }

/-- Build a request from an operation and the two raw payloads. -/
def mkReq (op : Operation) (obj old : Raw) : Request :=
  { AdmissionRequest :=
      { operation := op, object := obj, oldObject := old, userInfo := "alice" } }

/-! Helper facts: the three operation constants are pairwise distinct. -/

theorem op_create_ne_update : Operation.Create ≠ Operation.Update := by decide

theorem op_create_ne_delete : Operation.Create ≠ Operation.Delete := by decide

theorem op_update_ne_create : Operation.Update ≠ Operation.Create := by decide

theorem op_update_ne_delete : Operation.Update ≠ Operation.Delete := by decide

theorem op_delete_ne_create : Operation.Delete ≠ Operation.Create := by decide

theorem op_delete_ne_update : Operation.Delete ≠ Operation.Update := by decide

/-! Claim theorems. -/

/-- The decode of the primary or of the previous payload fails, following the
decode sequence the handler runs for the request's operation (for Update the
previous payload is only decoded after the primary decode succeeded, into the
deep copy of the fresh empty instance). -/
def DecodeFailure (v : MetaValidator) (d : Decoder) (req : Request) : Prop :=
  (req.Operation = Operation.Create ∧
    ∃ e, d.Decode req v.DeepCopyObject = Except.error e) ∨
  (req.Operation = Operation.Update ∧
    ((∃ e, d.DecodeRaw req.Object v.DeepCopyObject = Except.error e) ∨
     (∃ o, d.DecodeRaw req.Object v.DeepCopyObject = Except.ok o ∧
      ∃ e, d.DecodeRaw req.OldObject (RObject.DeepCopyObject v.DeepCopyObject) =
        Except.error e))) ∨
  (req.Operation = Operation.Delete ∧
    ∃ e, d.DecodeRaw req.OldObject v.DeepCopyObject = Except.error e)

/-- C2: for every admission request (any operation kind) in which the decode
of the primary or of the previous payload fails, the handler returns an
Errored verdict with client-error status 400, and no validation-capability
method (`ValidateCreate`, `ValidateUpdate`, `ValidateDelete`) is invoked for
that request. -/
theorem C2_decode_failure_errored_no_validation
    (v : MetaValidator) (d : Decoder) (ctx : Context) (req : Request)
    (hfail : DecodeFailure v d req) :
    (∃ e, (validatingHandler.Handle ⟨some v, some d⟩ ctx req).1 =
      Outcome.response (Response.errored StatusBadRequest e)) ∧
    ((validatingHandler.Handle ⟨some v, some d⟩ ctx req).2.all
      fun ev => !ev.isValidate) = true := by
  rcases hfail with ⟨hop, e, hdec⟩ | ⟨hop, hcase⟩ | ⟨hop, e, hdec⟩
  · refine ⟨⟨e, ?_⟩, ?_⟩ <;>
      simp [validatingHandler.Handle, handleBody, handleCreate, hop, hdec,
        Event.isValidate]
  · rcases hcase with ⟨e, hdec⟩ | ⟨o, hdec1, e, hdec2⟩
    · refine ⟨⟨e, ?_⟩, ?_⟩ <;>
        simp [validatingHandler.Handle, handleBody, handleCreate, handleUpdate,
          hop, op_update_ne_create, hdec, Event.isValidate]
    · refine ⟨⟨e, ?_⟩, ?_⟩ <;>
        simp [validatingHandler.Handle, handleBody, handleCreate, handleUpdate,
          hop, op_update_ne_create, hdec1, hdec2, Event.isValidate]
  · refine ⟨⟨e, ?_⟩, ?_⟩ <;>
      simp [validatingHandler.Handle, handleBody, handleCreate, handleUpdate,
        handleDelete, hop, op_delete_ne_create, op_delete_ne_update, hdec,
        Event.isValidate]

/-- C2 witness: a concrete Update request whose previous payload fails to
decode yields Errored(400) with no validation call. -/
theorem C2_witness :
    (∃ e, (validatingHandler.Handle ⟨some sampleValidator, some sampleDecoder⟩ ()
      (mkReq Operation.Update "replicas:3" "bad")).1 =
      Outcome.response (Response.errored StatusBadRequest e)) ∧
    ((validatingHandler.Handle ⟨some sampleValidator, some sampleDecoder⟩ ()
      (mkReq Operation.Update "replicas:3" "bad")).2.all
      fun ev => !ev.isValidate) = true :=
  C2_decode_failure_errored_no_validation sampleValidator sampleDecoder ()
    (mkReq Operation.Update "replicas:3" "bad")
    (Or.inr (Or.inl ⟨rfl, Or.inr ⟨{ typeName := "CronTab", data := "replicas:3" },
      rfl, "decode failure", rfl⟩⟩))

/-- The validator rejects the request with message `M` after all decodes of
the operation's branch succeeded. -/
def ValidatorRejects (v : MetaValidator) (d : Decoder) (req : Request)
    (M : String) : Prop :=
  (req.Operation = Operation.Create ∧
    ∃ o, d.Decode req v.DeepCopyObject = Except.ok o ∧
      v.ValidateCreate o req.AdmissionRequest = Except.ok (some M)) ∨
  (req.Operation = Operation.Update ∧
    ∃ o o', d.DecodeRaw req.Object v.DeepCopyObject = Except.ok o ∧
      d.DecodeRaw req.OldObject (RObject.DeepCopyObject v.DeepCopyObject) =
        Except.ok o' ∧
      v.ValidateUpdate o o' req.AdmissionRequest = Except.ok (some M)) ∨
  (req.Operation = Operation.Delete ∧
    ∃ o, d.DecodeRaw req.OldObject v.DeepCopyObject = Except.ok o ∧
      v.ValidateDelete o req.AdmissionRequest = Except.ok (some M))

/-- C3: for every admission request on which the validator rejects
(`ValidateCreate`, `ValidateUpdate` or `ValidateDelete` returns an error with
message `M`) after a successful decode, the handler's verdict is Denied with
reason exactly `M`. -/
theorem C3_validator_rejection_denied
    (v : MetaValidator) (d : Decoder) (ctx : Context) (req : Request)
    (M : String) (hrej : ValidatorRejects v d req M) :
    (validatingHandler.Handle ⟨some v, some d⟩ ctx req).1 =
      Outcome.response (Response.denied M) := by
  rcases hrej with ⟨hop, o, hdec, hval⟩ | ⟨hop, o, o', hdec1, hdec2, hval⟩ |
    ⟨hop, o, hdec, hval⟩
  · simp [validatingHandler.Handle, handleBody, handleCreate, hop, hdec, hval]
  · simp [validatingHandler.Handle, handleBody, handleCreate, handleUpdate,
      hop, op_update_ne_create, hdec1, hdec2, hval]
  · simp [validatingHandler.Handle, handleBody, handleCreate, handleUpdate,
      handleDelete, hop, op_delete_ne_create, op_delete_ne_update, hdec, hval]

/-- C3 witness: a concrete Create request with a negative replica count is
Denied with exactly the validator's message. -/
theorem C3_witness :
    (validatingHandler.Handle ⟨some sampleValidator, some sampleDecoder⟩ ()
      (mkReq Operation.Create "replicas:-1" "")).1 =
      Outcome.response (Response.denied "replicas must be >= 0") :=
  C3_validator_rejection_denied sampleValidator sampleDecoder ()
    (mkReq Operation.Create "replicas:-1" "") "replicas must be >= 0"
    (Or.inl ⟨rfl, { typeName := "CronTab", data := "replicas:-1" }, rfl, rfl⟩)

/-- C4: for every Create request whose payload decodes successfully and whose
validator's `ValidateCreate` returns no error, the handler's verdict is
Allowed with an empty reason. -/
theorem C4_create_accept_allowed
    (v : MetaValidator) (d : Decoder) (ctx : Context) (req : Request)
    (o : RObject)
    (hop : req.Operation = Operation.Create)
    (hdec : d.Decode req v.DeepCopyObject = Except.ok o)
    (hval : v.ValidateCreate o req.AdmissionRequest = Except.ok none) :
    (validatingHandler.Handle ⟨some v, some d⟩ ctx req).1 =
      Outcome.response (Response.allowed "") := by
  simp [validatingHandler.Handle, handleBody, handleCreate, handleUpdate,
    handleDelete, hop, op_create_ne_update, op_create_ne_delete, hdec, hval]

/-- C4 witness: a concrete well-formed Create request the validator accepts
is Allowed. -/
theorem C4_witness :
    (validatingHandler.Handle ⟨some sampleValidator, some sampleDecoder⟩ ()
      (mkReq Operation.Create "replicas:3" "")).1 =
      Outcome.response (Response.allowed "") :=
  C4_create_accept_allowed sampleValidator sampleDecoder ()
    (mkReq Operation.Create "replicas:3" "")
    { typeName := "CronTab", data := "replicas:3" } rfl rfl rfl

/-- C5: for every Update request whose two decodes succeed, the handler calls
`ValidateUpdate` with the instance decoded from the primary bytes first and
the instance decoded from the previous-object bytes second, and the trace
shows exactly one fresh-instance construction and one deep copy (the old
target is the deep copy of the fresh empty instance, not a second
construction).  The trace is the same whatever `ValidateUpdate` returns. -/
theorem C5_update_arguments_and_deep_copy
    (v : MetaValidator) (d : Decoder) (ctx : Context) (req : Request)
    (newObj oldObj : RObject)
    (hop : req.Operation = Operation.Update)
    (hdec1 : d.DecodeRaw req.Object v.DeepCopyObject = Except.ok newObj)
    (hdec2 : d.DecodeRaw req.OldObject (RObject.DeepCopyObject v.DeepCopyObject) =
      Except.ok oldObj) :
    (validatingHandler.Handle ⟨some v, some d⟩ ctx req).2 =
      [Event.constructEmpty v.DeepCopyObject,
       Event.deepCopy v.DeepCopyObject,
       Event.decodeRaw req.Object v.DeepCopyObject,
       Event.decodeRaw req.OldObject (RObject.DeepCopyObject v.DeepCopyObject),
       Event.validateUpdate newObj oldObj req.AdmissionRequest] := by
  cases hv : v.ValidateUpdate newObj oldObj req.AdmissionRequest with
  | error p =>
    simp [validatingHandler.Handle, handleBody, handleCreate, handleUpdate,
      handleDelete, hop, op_update_ne_create, op_update_ne_delete,
      hdec1, hdec2, hv]
  | ok r =>
    cases r <;>
      simp [validatingHandler.Handle, handleBody, handleCreate, handleUpdate,
        handleDelete, hop, op_update_ne_create, op_update_ne_delete,
        hdec1, hdec2, hv]

/-- C5 witness: a concrete Update request produces exactly that call trace. -/
theorem C5_witness :
    (validatingHandler.Handle ⟨some sampleValidator, some sampleDecoder⟩ ()
      (mkReq Operation.Update "replicas:3" "replicas:2")).2 =
      [Event.constructEmpty sampleValidator.DeepCopyObject,
       Event.deepCopy sampleValidator.DeepCopyObject,
       Event.decodeRaw (mkReq Operation.Update "replicas:3" "replicas:2").Object
         sampleValidator.DeepCopyObject,
       Event.decodeRaw (mkReq Operation.Update "replicas:3" "replicas:2").OldObject
         (RObject.DeepCopyObject sampleValidator.DeepCopyObject),
       Event.validateUpdate { typeName := "CronTab", data := "replicas:3" }
         { typeName := "CronTab", data := "replicas:2" }
         (mkReq Operation.Update "replicas:3" "replicas:2").AdmissionRequest] :=
  C5_update_arguments_and_deep_copy sampleValidator sampleDecoder ()
    (mkReq Operation.Update "replicas:3" "replicas:2")
    { typeName := "CronTab", data := "replicas:3" }
    { typeName := "CronTab", data := "replicas:2" } rfl rfl rfl

/-- C6: for every Delete request, the previous-object bytes are decoded into
the primary (and only) instance and, when that decode succeeds, that decoded
instance is the one passed to `ValidateDelete`; the two cases (decode error /
decode success) are exhaustive, and in both the only decoder call in the
trace reads `req.OldObject` — the primary object bytes `req.Object` are never
decoded on the Delete branch. -/
theorem C6_delete_decodes_previous_into_primary
    (v : MetaValidator) (d : Decoder) (ctx : Context) (req : Request)
    (hop : req.Operation = Operation.Delete) :
    (∀ e, d.DecodeRaw req.OldObject v.DeepCopyObject = Except.error e →
      (validatingHandler.Handle ⟨some v, some d⟩ ctx req).2 =
        [Event.constructEmpty v.DeepCopyObject,
         Event.decodeRaw req.OldObject v.DeepCopyObject]) ∧
    (∀ o, d.DecodeRaw req.OldObject v.DeepCopyObject = Except.ok o →
      (validatingHandler.Handle ⟨some v, some d⟩ ctx req).2 =
        [Event.constructEmpty v.DeepCopyObject,
         Event.decodeRaw req.OldObject v.DeepCopyObject,
         Event.validateDelete o req.AdmissionRequest]) := by
  constructor
  · intro e hd
    simp [validatingHandler.Handle, handleBody, handleCreate, handleUpdate,
      handleDelete, hop, op_delete_ne_create, op_delete_ne_update, hd]
  · intro o hd
    cases hv : v.ValidateDelete o req.AdmissionRequest with
    | error p =>
      simp [validatingHandler.Handle, handleBody, handleCreate, handleUpdate,
        handleDelete, hop, op_delete_ne_create, op_delete_ne_update, hd, hv]
    | ok r =>
      cases r <;>
        simp [validatingHandler.Handle, handleBody, handleCreate, handleUpdate,
          handleDelete, hop, op_delete_ne_create, op_delete_ne_update, hd, hv]

/-- C6 witness: a concrete Delete request decodes only the previous bytes,
into the primary instance, and passes the result to `ValidateDelete`. -/
theorem C6_witness :
    (validatingHandler.Handle ⟨some sampleValidator, some sampleDecoder⟩ ()
      (mkReq Operation.Delete "ignored" "replicas:2")).2 =
      [Event.constructEmpty sampleValidator.DeepCopyObject,
       Event.decodeRaw (mkReq Operation.Delete "ignored" "replicas:2").OldObject
         sampleValidator.DeepCopyObject,
       Event.validateDelete { typeName := "CronTab", data := "replicas:2" }
         (mkReq Operation.Delete "ignored" "replicas:2").AdmissionRequest] :=
  (C6_delete_decodes_previous_into_primary sampleValidator sampleDecoder ()
    (mkReq Operation.Delete "ignored" "replicas:2") rfl).2
    { typeName := "CronTab", data := "replicas:2" } rfl

/-- C7: for every admission request whose operation kind is none of Create,
Update or Delete, the handler performs no decode and invokes no validation
method, and the verdict is Allowed: the whole run is the fresh-instance
construction followed by `Allowed("")`, for any decoder (even an absent
one). -/
theorem C7_other_operation_allowed
    (v : MetaValidator) (dec : Option Decoder) (ctx : Context) (req : Request)
    (h1 : req.Operation ≠ Operation.Create)
    (h2 : req.Operation ≠ Operation.Update)
    (h3 : req.Operation ≠ Operation.Delete) :
    validatingHandler.Handle ⟨some v, dec⟩ ctx req =
      (Outcome.response (Response.allowed ""),
       [Event.constructEmpty v.DeepCopyObject]) := by
  simp [validatingHandler.Handle, handleBody, handleCreate, handleUpdate,
    handleDelete, h1, h2, h3]

/-- C7 witness: a CONNECT request is Allowed with no decode and no
validation call. -/
theorem C7_witness :
    validatingHandler.Handle ⟨some sampleValidator, some sampleDecoder⟩ ()
      (mkReq "CONNECT" "obj" "old") =
      (Outcome.response (Response.allowed ""),
       [Event.constructEmpty sampleValidator.DeepCopyObject]) :=
  C7_other_operation_allowed sampleValidator (some sampleDecoder) ()
    (mkReq "CONNECT" "obj" "old") (by decide) (by decide) (by decide)

/-- Create-validation method of the sample concrete type `CronTab`. -/
def cronTabVC (o : RObject) : Option String :=
  if o.data = "replicas:-1" then some "replicas must be >= 0" else none

/-- Update-validation method of the sample concrete type `CronTab`. -/
def cronTabVU (o _old : RObject) : Option String :=
  if o.data = "replicas:-1" then some "replicas must be >= 0" else none

/-- Delete-validation method of the sample concrete type `CronTab`. -/
def cronTabVD (o : RObject) : Option String :=
  if o.data = "locked" then some "object is locked" else none

/-- The `Validator` method set of the sample concrete type `CronTab`. -/
def cronTabImpl : ValidatorImpl where
  ValidateCreate := cronTabVC
  ValidateUpdate := cronTabVU
  ValidateDelete := cronTabVD

/-- A dispatch environment in which only `CronTab` implements `Validator`. -/
def sampleEnv : TypeEnv :=
  fun n => if n = "CronTab" then some cronTabImpl else none

/-- A wrapper around a `CronTab` validator value. -/
def sampleWrapper : ValidatorWrapper :=
  NewValidatorWrapper { typeName := "CronTab", data := "" }

/-- An object of a foreign concrete type that does not implement `Validator`. -/
def fooObj : RObject := { typeName := "Foo", data := "" }

/-- Sample request metadata passed to the adapter. -/
def sampleMeta : AdmissionRequest :=
  { operation := Operation.Create, object := "o", oldObject := "", userInfo := "alice" }

/-- Different sample request metadata. -/
def sampleMeta2 : AdmissionRequest :=
  { operation := Operation.Delete, object := "x", oldObject := "y", userInfo := "bob" }

/-- C8: for every instance produced by the adapter's empty-instance
constructor (deep copies coincide with it, as a deep copy of a value is the
value) and every request metadata, each adapter validate method invokes the
wrapped capability's corresponding validation exactly once — the recorded
wrapped-capability call list is exactly one call with that same instance —
and the result does not depend on the request metadata. -/
theorem C8_adapter_delegates_once_ignoring_metadata
    (env : TypeEnv) (w : ValidatorWrapper) (impl : ValidatorImpl)
    (obj old : RObject) (req req' : AdmissionRequest)
    (henv : env w.Validator.typeName = some impl)
    (hobj : obj = ValidatorWrapper.DeepCopyObject w) :
    ValidatorWrapper.ValidateCreate env w obj req =
      (Except.ok (impl.ValidateCreate obj), [WrappedCall.create obj]) ∧
    ValidatorWrapper.ValidateUpdate env w obj old req =
      (Except.ok (impl.ValidateUpdate obj old), [WrappedCall.update obj old]) ∧
    ValidatorWrapper.ValidateDelete env w obj req =
      (Except.ok (impl.ValidateDelete obj), [WrappedCall.delete obj]) ∧
    ValidatorWrapper.ValidateCreate env w obj req =
      ValidatorWrapper.ValidateCreate env w obj req' ∧
    ValidatorWrapper.ValidateUpdate env w obj old req =
      ValidatorWrapper.ValidateUpdate env w obj old req' ∧
    ValidatorWrapper.ValidateDelete env w obj req =
      ValidatorWrapper.ValidateDelete env w obj req' := by
  subst hobj
  simp [ValidatorWrapper.ValidateCreate, ValidatorWrapper.ValidateUpdate,
    ValidatorWrapper.ValidateDelete, ValidatorWrapper.DeepCopyObject,
    RObject.DeepCopyObject, henv]

/-- C8 witness: the concrete adapter delegates a create validation to the
wrapped `CronTab` implementation once, with the same instance. -/
theorem C8_witness :
    ValidatorWrapper.ValidateCreate sampleEnv sampleWrapper
      (ValidatorWrapper.DeepCopyObject sampleWrapper) sampleMeta =
      (Except.ok (cronTabImpl.ValidateCreate
        (ValidatorWrapper.DeepCopyObject sampleWrapper)),
       [WrappedCall.create (ValidatorWrapper.DeepCopyObject sampleWrapper)]) :=
  (C8_adapter_delegates_once_ignoring_metadata sampleEnv sampleWrapper
    cronTabImpl (ValidatorWrapper.DeepCopyObject sampleWrapper) fooObj
    sampleMeta sampleMeta2 rfl rfl).1

/-- C9: if the configured validation capability is nil the handler panics
(fail fast) with an empty trace — before any decode or validation, and
without returning any verdict — and with a non-nil capability the nil-check
branch is bypassed: the result is exactly that of the post-check body
`handleBody`. -/
theorem C9_nil_validator_fail_fast
    (h : validatingHandler) (ctx : Context) (req : Request) :
    (h.validator = none →
      validatingHandler.Handle h ctx req =
        (Outcome.panicked GoPanic.nilValidator, [])) ∧
    (∀ v, h.validator = some v →
      validatingHandler.Handle h ctx req = handleBody v h.decoder req) := by
  constructor
  · intro hnone
    simp [validatingHandler.Handle, hnone]
  · intro v hsome
    simp [validatingHandler.Handle, hsome]

/-- C9 witness: a handler wired with a nil validator panics on a concrete
request with an empty trace. -/
theorem C9_witness :
    validatingHandler.Handle ⟨none, some sampleDecoder⟩ ()
      (mkReq Operation.Create "replicas:3" "") =
      (Outcome.panicked GoPanic.nilValidator, []) :=
  (C9_nil_validator_fail_fast ⟨none, some sampleDecoder⟩ ()
    (mkReq Operation.Create "replicas:3" "")).1 rfl

/-- C10: only the validator is guarded against nil, not the decoder.  With a
nil decoder, a Create, Update or Delete request hits an unchecked
nil-pointer dereference at the first decode call (no decode and no
validation event is recorded), while a request of any other operation kind
still returns Allowed without fault. -/
theorem C10_nil_decoder_guarding
    (v : MetaValidator) (ctx : Context) (req : Request) :
    ((req.Operation = Operation.Create ∨ req.Operation = Operation.Update ∨
      req.Operation = Operation.Delete) →
      (validatingHandler.Handle ⟨some v, none⟩ ctx req).1 =
        Outcome.panicked GoPanic.nilPtrDeref ∧
      ((validatingHandler.Handle ⟨some v, none⟩ ctx req).2.all
        fun ev => !(ev.isDecode || ev.isValidate)) = true) ∧
    (req.Operation ≠ Operation.Create → req.Operation ≠ Operation.Update →
      req.Operation ≠ Operation.Delete →
      validatingHandler.Handle ⟨some v, none⟩ ctx req =
        (Outcome.response (Response.allowed ""),
         [Event.constructEmpty v.DeepCopyObject])) := by
  constructor
  · intro hop
    rcases hop with hop | hop | hop
    · constructor <;>
        simp [validatingHandler.Handle, handleBody, handleCreate, hop,
          Event.isDecode, Event.isValidate]
    · constructor <;>
        simp [validatingHandler.Handle, handleBody, handleCreate, handleUpdate,
          hop, op_update_ne_create, Event.isDecode, Event.isValidate]
    · constructor <;>
        simp [validatingHandler.Handle, handleBody, handleCreate, handleUpdate,
          handleDelete, hop, op_delete_ne_create, op_delete_ne_update,
          Event.isDecode, Event.isValidate]
  · intro h1 h2 h3
    simp [validatingHandler.Handle, handleBody, handleCreate, handleUpdate,
      handleDelete, h1, h2, h3]

/-- C10 witness: with a nil decoder a concrete Create request panics with a
nil-pointer dereference and no decode or validation event. -/
theorem C10_witness :
    (validatingHandler.Handle ⟨some sampleValidator, none⟩ ()
      (mkReq Operation.Create "replicas:3" "")).1 =
        Outcome.panicked GoPanic.nilPtrDeref ∧
    ((validatingHandler.Handle ⟨some sampleValidator, none⟩ ()
      (mkReq Operation.Create "replicas:3" "")).2.all
        fun ev => !(ev.isDecode || ev.isValidate)) = true :=
  (C10_nil_decoder_guarding sampleValidator ()
    (mkReq Operation.Create "replicas:3" "")).1 (Or.inl rfl)

/-- C1 counterexample: calling the adapter's validate methods with an
instance of the foreign concrete type `Foo` (which does not implement
`Validator`) yields a Go type-assertion panic and zero wrapped-capability
calls — not a typed error, and not any Errored verdict — refuting the claim
that a foreign type surfaces as a typed error rather than an unchecked
crash. -/
theorem C1_counterexample :
    ValidatorWrapper.ValidateCreate sampleEnv sampleWrapper fooObj sampleMeta =
      (Except.error (GoPanic.typeAssertionFailed "Foo" "Validator"), []) ∧
    ValidatorWrapper.ValidateUpdate sampleEnv sampleWrapper fooObj
      (ValidatorWrapper.DeepCopyObject sampleWrapper) sampleMeta =
      (Except.error (GoPanic.typeAssertionFailed "Foo" "Validator"), []) ∧
    ValidatorWrapper.ValidateDelete sampleEnv sampleWrapper fooObj sampleMeta =
      (Except.error (GoPanic.typeAssertionFailed "Foo" "Validator"), []) :=
  ⟨rfl, rfl, rfl⟩

/-- C1 amended: for every call to the adapter's validate-on-create (and
likewise validate-on-update and validate-on-delete) with an instance whose
concrete type does not implement the `Validator` interface, the outcome is
an unchecked type-assertion panic — an unhandled crash, with no typed error
and with the wrapped capability never invoked. -/
theorem C1_amended_foreign_type_panics
    (env : TypeEnv) (w : ValidatorWrapper) (obj old : RObject)
    (req : AdmissionRequest)
    (h : env obj.typeName = none) :
    ValidatorWrapper.ValidateCreate env w obj req =
      (Except.error (GoPanic.typeAssertionFailed obj.typeName "Validator"), []) ∧
    ValidatorWrapper.ValidateUpdate env w obj old req =
      (Except.error (GoPanic.typeAssertionFailed obj.typeName "Validator"), []) ∧
    ValidatorWrapper.ValidateDelete env w obj req =
      (Except.error (GoPanic.typeAssertionFailed obj.typeName "Validator"), []) := by
  simp [ValidatorWrapper.ValidateCreate, ValidatorWrapper.ValidateUpdate,
    ValidatorWrapper.ValidateDelete, h]

/-- C1 amended witness: the foreign-type panic at a concrete input. -/
theorem C1_amended_witness :
    ValidatorWrapper.ValidateCreate sampleEnv sampleWrapper fooObj sampleMeta =
      (Except.error (GoPanic.typeAssertionFailed "Foo" "Validator"), []) :=
  (C1_amended_foreign_type_panics sampleEnv sampleWrapper fooObj
    (ValidatorWrapper.DeepCopyObject sampleWrapper) sampleMeta rfl).1
